import Mathlib

/-!
Verification of the client-side survey script (`src/script.js`) of the
`music-bot-survey` repository.

The script is shallowly embedded: browser `localStorage` becomes an explicit
association list of string pairs, the DOM form becomes a record of controls,
and the asynchronous fetch outcome becomes an explicit parameter of the
submit handler.  JavaScript numbers appear in the script only through
`Math.random() * 16 | 0` (an integer in `[0, 16)`, modelled as `Fin 16`) and
through the audio `currentTime` value, which the script only ever converts
with `toString` / `parseFloat`; playback positions are therefore modelled
abstractly by their decimal string form (`JsNumber`).
-/

set_option autoImplicit false

namespace MusicSurvey

/-- JavaScript string truthiness for `Option String` valued lookups:
`null` and the empty string are falsy. -/
def jsTruthy : Option String → Bool
  | none => false
  | some s => s ≠ ""

/-- `s.startsWith(p)` of JavaScript, on the underlying character lists. -/
def strStartsWith (s p : String) : Bool :=
  p.data.isPrefixOf s.data

/-! ## localStorage -/

/-- Association list of `localStorage` entries, in insertion order. -/
structure Storage where
  items : List (String × String)
deriving DecidableEq, Repr

/-- `localStorage.getItem`: value of the first entry with the given key
(keys are unique in a real store, so "first" is the stored binding). -/
def getPairs : List (String × String) → String → Option String
  | [], _ => none
  | (k', v') :: rest, k => if k' = k then some v' else getPairs rest k

/-- `localStorage.setItem`: overwrite the binding in place, else append. -/
def setPairs : List (String × String) → String → String → List (String × String)
  | [], k, v => [(k, v)]
  | (k', v') :: rest, k, v =>
    if k' = k then (k, v) :: rest else (k', v') :: setPairs rest k v

/-- `localStorage.removeItem`: drop every entry with the given key. -/
def removePairs : List (String × String) → String → List (String × String)
  | [], _ => []
  | (k', v') :: rest, k =>
    if k' = k then removePairs rest k else (k', v') :: removePairs rest k

def Storage.getItem (s : Storage) (k : String) : Option String :=
  getPairs s.items k

def Storage.setItem (s : Storage) (k v : String) : Storage :=
  ⟨setPairs s.items k v⟩

def Storage.removeItem (s : Storage) (k : String) : Storage :=
  ⟨removePairs s.items k⟩

/-- `Object.keys(localStorage)`. -/
def Storage.keys (s : Storage) : List String :=
  s.items.map (·.1)

/-! ## Per-browser identifier (`getOrCreateUUID`) -/

/-- The script's `STORAGE_PREFIX` constant, `'music_survey_'`
(renamed: the original all-caps identifier is not usable here). -/
def storagePfx : String := "music_survey_"

/-- Lowercase hexadecimal digit produced by `v.toString(16)` for `v < 16`. -/
def hexDigit (n : Nat) : Char :=
  if n < 10 then Char.ofNat ('0'.toNat + n) else Char.ofNat ('a'.toNat + (n - 10))

/-- Replacement for one template character:
`v = (c == 'x') ? r : (r & 0x3 | 0x8)`, then `v.toString(16)`. -/
def uuidChar (c : Char) (r : Nat) : Char :=
  hexDigit (if c = 'x' then r else (r &&& 0x3) ||| 0x8)

/-- `template.replace(/[xy]/g, fn)`: every `x`/`y` occurrence is replaced
left to right, each consuming one draw of `Math.random() * 16 | 0`
(an integer in `[0, 16)`, hence `Fin 16`); `i` counts the draws made. -/
def replaceXY (draws : Nat → Fin 16) : List Char → Nat → List Char
  | [], _ => []
  | c :: rest, i =>
    if c = 'x' ∨ c = 'y' then uuidChar c (draws i) :: replaceXY draws rest (i + 1)
    else c :: replaceXY draws rest i

def uuidTemplate : String := "xxxxxxxx-xxxx-4xxx-yxxx-xxxxxxxxxxxx"

/-- The generator inside `getOrCreateUUID` (simplified UUID v4). -/
def genUUID (draws : Nat → Fin 16) : String :=
  String.mk (replaceXY draws uuidTemplate.data 0)

/-- `getOrCreateUUID`: read `music_survey_user_uuid`; when the stored value
is falsy (absent, per `if (!uuid)`) generate a fresh identifier and store
it; return the identifier together with the resulting store. -/
def getOrCreateUUID (s : Storage) (draws : Nat → Fin 16) : String × Storage :=
  let key := storagePfx ++ "user_uuid"
  let stored := s.getItem key
  if jsTruthy stored then (stored.getD "", s)
  else
    let uuid := genUUID draws
    (uuid, s.setItem key uuid)

/-- Lowercase hexadecimal digit predicate (`0`–`9`, `a`–`f`). -/
def isLowerHex (c : Char) : Bool :=
  ('0' ≤ c && c ≤ '9') || ('a' ≤ c && c ≤ 'f')

/-! ## DOM model: form controls, status element -/

/-- Tag of a form control, as selected by `querySelectorAll`. -/
inductive CtrlKind where
  | input
  | button
  | textarea
  | selectTag
deriving DecidableEq, Repr

/-- One form control.  `typeAttr` is the `type` attribute (`"checkbox"`,
`"submit"`, …); `textContent` matters for the submit button's label. -/
structure Control where
  kind : CtrlKind
  typeAttr : String
  name : String
  checked : Bool
  disabled : Bool
  value : String
  textContent : String
deriving DecidableEq, Repr

/-- The survey form.  `fields` is what `new FormData(form)` yields (a DOM
concern outside the script); `validity` is the result of the native
`form.checkValidity()`; the style strings mirror `form.style`. -/
structure Form where
  controls : List Control
  fields : List (String × String)
  validity : Bool
  opacity : String
  pointerEvents : String
deriving DecidableEq, Repr

/-- The `#submissionStatus` element. -/
structure StatusEl where
  textContent : String
  className : String
  opacity : String
  fontWeight : String
deriving DecidableEq, Repr

/-- `showStatus(message, type)`. -/
def showStatus (st : StatusEl) (message ty : String) : StatusEl :=
  { st with textContent := message, className := ty }

/-- Is this control matched by `querySelector('button[type="submit"]')`? -/
def isSubmitButton (c : Control) : Bool :=
  c.kind = CtrlKind.button && c.typeAttr = "submit"

/-- Apply `f` to the first control satisfying `p` (a `querySelector` hit);
no-op when no control matches. -/
def updateFirst (p : Control → Bool) (f : Control → Control) :
    List Control → List Control
  | [] => []
  | c :: rest => if p c then f c :: rest else c :: updateFirst p f rest

/-- Is this control matched by `querySelectorAll('input, button, textarea')`? -/
def isLockable (c : Control) : Bool :=
  c.kind = CtrlKind.input || c.kind = CtrlKind.button || c.kind = CtrlKind.textarea

/-- `lockForm()`: disable every input/button/textarea, grey the form out,
and keep the status message visible. -/
def lockForm (f : Form) (st : StatusEl) : Form × StatusEl :=
  ({ f with
      controls := f.controls.map (fun c =>
        if isLockable c then { c with disabled := true } else c),
      opacity := "0.6",
      pointerEvents := "none" },
   { st with opacity := "1", fontWeight := "bold" })

/-- `checkIfSubmitted()`: on load, lock the form and show the notice when
the completion flag is `'true'`. -/
def checkIfSubmitted (storage : Storage) (f : Form) (st : StatusEl) :
    Form × StatusEl :=
  if storage.getItem (storagePfx ++ "completed") = some "true" then
    let locked := lockForm f st
    (locked.1, showStatus locked.2 "您已完成此問卷，請勿重複填寫。" "info")
  else (f, st)

/-- `form.reset()`: restore default control state (modelled as unchecked
boxes and empty values; defaults are a DOM concern outside the script). -/
def Form.reset (f : Form) : Form :=
  { f with controls := f.controls.map (fun c => { c with checked := false, value := "" }) }

/-! ## Checkbox-group validation -/

/-- One entry of the `requiredGroups` array. -/
structure CbGroup where
  name : String
  message : String
deriving DecidableEq, Repr

def requiredGroups : List CbGroup :=
  [⟨"styles_soft_relaxing", "請至少選擇一項您感到放鬆的音樂風格。"⟩,
   ⟨"styles_intense_emotional", "請至少選擇一項您感到不舒服的音樂風格。"⟩]

/-- The checkboxes of one group:
`input[type="checkbox"][name="<group>"]`. -/
def groupBoxes (f : Form) (g : CbGroup) : List Control :=
  f.controls.filter (fun c =>
    c.kind = CtrlKind.input && c.typeAttr = "checkbox" && c.name = g.name)

/-- `Array.from(checkboxes).some(checkbox => checkbox.checked)`. -/
def groupChecked (f : Form) (g : CbGroup) : Bool :=
  (groupBoxes f g).any (·.checked)

/-- The first required group with no checked box — the group whose message
`validateCheckboxGroups` shows before returning `false`. -/
def firstFailingGroup (f : Form) : Option CbGroup :=
  requiredGroups.find? (fun g => !groupChecked f g)

/-- `validateCheckboxGroups()`: `true` iff every required group has at
least one checked box. -/
def validateCheckboxGroups (f : Form) : Bool :=
  (firstFailingGroup f).isNone

/-! ## clearSurveyStorage -/

/-- `clearSurveyStorage()`: iterate over `Object.keys(localStorage)` and
remove every key starting with `music_survey_audio_`. -/
def clearSurveyStorage (s : Storage) : Storage :=
  s.keys.foldl
    (fun acc key =>
      if strStartsWith key (storagePfx ++ "audio_") then acc.removeItem key
      else acc)
    s

/-! ## URL-encoded request body -/

/-- UTF-8 byte sequence of a code point (as natural numbers below 256). -/
def utf8Bytes (n : Nat) : List Nat :=
  if n < 0x80 then [n]
  else if n < 0x800 then
    [0xC0 ||| (n >>> 6), 0x80 ||| (n &&& 0x3F)]
  else if n < 0x10000 then
    [0xE0 ||| (n >>> 12), 0x80 ||| ((n >>> 6) &&& 0x3F), 0x80 ||| (n &&& 0x3F)]
  else
    [0xF0 ||| (n >>> 18), 0x80 ||| ((n >>> 12) &&& 0x3F),
     0x80 ||| ((n >>> 6) &&& 0x3F), 0x80 ||| (n &&& 0x3F)]

/-- Uppercase hexadecimal digit for percent-escapes. -/
def hexDigitUpper (n : Nat) : Char :=
  if n < 10 then Char.ofNat ('0'.toNat + n) else Char.ofNat ('A'.toNat + (n - 10))

/-- `%XX` escape of one byte. -/
def pctEscape (b : Nat) : List Char :=
  ['%', hexDigitUpper (b / 16), hexDigitUpper (b % 16)]

/-- Characters `URLSearchParams` serialises verbatim
(`application/x-www-form-urlencoded`: alphanumerics and `*-._`). -/
def urlUnreserved (c : Char) : Bool :=
  ('0' ≤ c && c ≤ '9') || ('a' ≤ c && c ≤ 'z') || ('A' ≤ c && c ≤ 'Z') ||
    c = '*' || c = '-' || c = '.' || c = '_'

/-- `application/x-www-form-urlencoded` escaping of one string: spaces
become `+`, unreserved characters stay, all else is percent-escaped
byte-wise. -/
def urlEncode (s : String) : String :=
  String.mk (s.data.foldr
    (fun c acc =>
      (if c = ' ' then ['+']
       else if urlUnreserved c then [c]
       else (utf8Bytes c.toNat).foldr (fun b acc2 => pctEscape b ++ acc2) []) ++ acc)
    [])

/-- `new URLSearchParams(formData).toString()`:
`k1=v1&k2=v2&…` with both sides escaped. -/
def urlEncodeParams (fields : List (String × String)) : String :=
  String.intercalate "&"
    (fields.map (fun kv => urlEncode kv.1 ++ "=" ++ urlEncode kv.2))

/-! ## The submit handler -/

/-- The script's `GAS_WEB_APP_URL` constant. -/
def gasWebAppUrl : String :=
  "https://script.google.com/macros/s/AKfycbxiVrXBRaWDxZZRxDAqOCn-dMeJ6ZPr6JyAktUx5Deo9-zGg17jm6s66rxJmAxZ5mI0TA/exec"

/-- Outcome of `await fetch(...)`: a response with its `type`, or a thrown
network error. -/
inductive FetchOutcome where
  | response (ty : String)
  | thrown
deriving DecidableEq, Repr

/-- An HTTP request the handler issued: target URL and encoded body. -/
structure Request where
  url : String
  body : String
deriving DecidableEq, Repr

/-- State after the submit handler returns: the form, the status element,
the store, and the request that was sent (`none` when validation aborted
the submission before `fetch`). -/
structure SubmitResult where
  form : Form
  statusEl : StatusEl
  storage : Storage
  request : Option Request
deriving DecidableEq, Repr

/-- Disable the submit button and relabel it `'處理中...'`. -/
def disableSubmitBtn (f : Form) : Form :=
  let cs := updateFirst isSubmitButton
    (fun c => { c with disabled := true, textContent := "處理中..." }) f.controls
  { f with controls := cs }

/-- The `catch` block: re-enable the submit button, restore its label and
show the failure status. -/
def recoverFromError (f : Form) (st : StatusEl) : Form × StatusEl :=
  let cs := updateFirst isSubmitButton
    (fun c => { c with disabled := false, textContent := "提交問卷" }) f.controls
  ({ f with controls := cs },
   showStatus st "提交失敗: 請檢查網路後重試" "error")

/-- The `submit` event handler.  `draws` feeds `Math.random`, `nowISO` is
`new Date().toISOString()`, and `outcome` is what `await fetch` yields. -/
def submitHandler (f : Form) (st : StatusEl) (storage : Storage)
    (draws : Nat → Fin 16) (nowISO : String) (outcome : FetchOutcome) :
    SubmitResult :=
  match firstFailingGroup f with
  | some g =>
    { form := f, statusEl := showStatus st g.message "error",
      storage := storage, request := none }
  | none =>
    if !f.validity then
      { form := f, statusEl := showStatus st "請完成所有必填項目" "error",
        storage := storage, request := none }
    else
      let formData := f.fields ++ [("submission_time", nowISO)]
      let uuidRes := getOrCreateUUID storage draws
      let formData := formData ++ [("uuid", uuidRes.1)]
      let storage1 := uuidRes.2
      let st1 := showStatus st "提交中..." "info"
      let f1 := disableSubmitBtn f
      let req : Request := ⟨gasWebAppUrl, urlEncodeParams formData⟩
      match outcome with
      | FetchOutcome.response ty =>
        if ty = "opaque" then
          let st2 := showStatus st1 "提交成功！感謝您的參與" "success"
          let f2 := Form.reset f1
          let storage2 := clearSurveyStorage storage1
          let storage3 := storage2.setItem (storagePfx ++ "completed") "true"
          let locked := lockForm f2 st2
          { form := locked.1, statusEl := locked.2,
            storage := storage3, request := some req }
        else
          let er := recoverFromError f1 st1
          { form := er.1, statusEl := er.2,
            storage := storage1, request := some req }
      | FetchOutcome.thrown =>
        let er := recoverFromError f1 st1
        { form := er.1, statusEl := er.2,
          storage := storage1, request := some req }

/-! ## Audio persistence -/

/-- A JavaScript number as the script sees it: only its `toString` form is
ever observed (`toString` on save, `parseFloat` on restore), so the value
is modelled by that decimal string. -/
structure JsNumber where
  repr : String
deriving DecidableEq, Repr

/-- `parseFloat(savedTime)`, kept abstract on the string form. -/
def parseFloatJs (s : String) : JsNumber := ⟨s⟩

/-- One `<audio>` element; `currentSrc` is `""` when unset (falsy), and
`sourceSrc` models `audio.querySelector('source')?.src`. -/
structure Audio where
  currentSrc : String
  sourceSrc : Option String
  currentTime : JsNumber
  paused : Bool
deriving DecidableEq, Repr

/-- `audio.currentSrc || audio.querySelector('source')?.src`, with the
`if (!src) return` guard: the effective source, or `none` to skip. -/
def effectiveSrc (a : Audio) : Option String :=
  let src := if a.currentSrc ≠ "" then some a.currentSrc else a.sourceSrc
  if jsTruthy src then src else none

/-- `src.substring(src.lastIndexOf('/') + 1)`: the part after the last
slash (the whole string when there is none). -/
def fileNameOf (src : String) : String :=
  String.mk ((src.data.reverse.takeWhile (· ≠ '/')).reverse)

/-- The storage key of one audio element, when it has a usable source. -/
def audioStorageKey (a : Audio) : Option String :=
  (effectiveSrc a).map (fun src => storagePfx ++ "audio_" ++ fileNameOf src)

/-- The restore step of `initAudioPersistence` for one element: a truthy
saved value is written back into `audio.currentTime`. -/
def audioRestore (storage : Storage) (a : Audio) : Audio :=
  match audioStorageKey a with
  | none => a
  | some key =>
    match storage.getItem key with
    | none => a
    | some saved =>
      if saved ≠ "" then { a with currentTime := parseFloatJs saved } else a

/-- The `timeupdate` listener: while not paused, save the current time
under the element's key. -/
def audioTimeupdate (storage : Storage) (a : Audio) (key : String) : Storage :=
  if !a.paused then storage.setItem key a.currentTime.repr else storage

/-- The `ended` listener: drop the element's saved position. -/
def audioEnded (storage : Storage) (key : String) : Storage :=
  storage.removeItem key

/-! ## Statement-level predicate for the identifier-shape claim -/

/-- Formalisation of the claimed UUID v4 shape (not taken from the code):
walking the characters with their 0-based position, hyphens sit at
positions 8, 13, 18 and 23, position 14 is `'4'`, position 19 is one of
`8/9/a/b`, every other position is a lowercase hex digit, and the walk
ends exactly at position 36. -/
def uuidShapeAux : List Char → Nat → Bool
  | [], i => i == 36
  | c :: rest, i =>
    (if i == 8 || i == 13 || i == 18 || i == 23 then c == '-'
     else if i == 14 then c == '4'
     else if i == 19 then c == '8' || c == '9' || c == 'a' || c == 'b'
     else isLowerHex c) && uuidShapeAux rest (i + 1)

/-- A string has the claimed 36-character UUID v4 shape. -/
def uuidV4Shape (u : String) : Bool :=
  uuidShapeAux u.data 0

/-! ## Concrete fixtures used by the witnesses -/

/-- A checked checkbox of the given group. -/
def sampleCheckbox (nm : String) : Control :=
  ⟨CtrlKind.input, "checkbox", nm, true, false, "", ""⟩

def sampleSubmitBtn : Control :=
  ⟨CtrlKind.button, "submit", "", false, false, "", "提交問卷"⟩

/-- A form that passes both validation steps. -/
def sampleForm : Form :=
  { controls := [sampleCheckbox "styles_soft_relaxing",
                 sampleCheckbox "styles_intense_emotional",
                 sampleSubmitBtn],
    fields := [("q1", "yes")],
    validity := true,
    opacity := "1",
    pointerEvents := "auto" }

/-- A form whose required checkbox groups are empty. -/
def sampleInvalidForm : Form :=
  { controls := [sampleSubmitBtn],
    fields := [],
    validity := true,
    opacity := "1",
    pointerEvents := "auto" }

def sampleStatus : StatusEl := ⟨"", "", "1", "normal"⟩

def sampleAudio : Audio :=
  { currentSrc := "https://example.com/media/track1.mp3",
    sourceSrc := none,
    currentTime := ⟨"12.5"⟩,
    paused := false }

def zeroDraws : Nat → Fin 16 := fun _ => 0

/-! ## Association-list lemmas -/

theorem getPairs_setPairs_self (l : List (String × String)) (k v : String) :
    getPairs (setPairs l k v) k = some v := by
  induction l with
  | nil => simp [setPairs, getPairs]
  | cons hd tl ih =>
    obtain ⟨k', v'⟩ := hd
    by_cases h : k' = k <;> simp [setPairs, getPairs, h, ih]

theorem getPairs_setPairs_ne (l : List (String × String)) (k v k' : String)
    (h : k' ≠ k) : getPairs (setPairs l k v) k' = getPairs l k' := by
  induction l with
  | nil => simp [setPairs, getPairs, Ne.symm h]
  | cons hd tl ih =>
    obtain ⟨k₀, v₀⟩ := hd
    by_cases h₀ : k₀ = k
    · subst h₀
      simp [setPairs, getPairs, Ne.symm h]
    · simp only [setPairs, if_neg h₀, getPairs]
      by_cases h₁ : k₀ = k' <;> simp [h₁, ih]

theorem getPairs_removePairs (l : List (String × String)) (k k' : String) :
    getPairs (removePairs l k) k' =
      if k' = k then none else getPairs l k' := by
  induction l with
  | nil => simp [removePairs, getPairs]
  | cons hd tl ih =>
    obtain ⟨k₀, v₀⟩ := hd
    by_cases h₀ : k₀ = k
    · subst h₀
      simp only [removePairs, if_true]
      rw [ih]
      rcases eq_or_ne k' k₀ with h₁ | h₁
      · simp [h₁]
      · simp [getPairs, h₁, Ne.symm h₁]
    · simp only [removePairs, if_neg h₀, getPairs]
      by_cases h₁ : k₀ = k'
      · subst h₁
        simp [h₀]
      · simp [h₁, ih]

theorem getPairs_eq_none_of_not_mem (l : List (String × String)) (k : String)
    (h : k ∉ l.map (·.1)) : getPairs l k = none := by
  induction l with
  | nil => simp [getPairs]
  | cons hd tl ih =>
    obtain ⟨k₀, v₀⟩ := hd
    simp only [List.map_cons, List.mem_cons] at h
    push_neg at h
    simp [getPairs, Ne.symm h.1, ih h.2]

theorem getPairs_isSome_of_mem (l : List (String × String)) (k : String)
    (h : k ∈ l.map (·.1)) : (getPairs l k).isSome = true := by
  induction l with
  | nil => simp at h
  | cons hd tl ih =>
    obtain ⟨k₀, v₀⟩ := hd
    rcases eq_or_ne k₀ k with h₀ | h₀
    · simp [getPairs, h₀]
    · simp only [List.map_cons, List.mem_cons] at h
      rcases h with h | h
      · exact absurd h.symm h₀
      · simp [getPairs, h₀, ih h]

theorem mem_map_fst_setPairs (l : List (String × String)) (k v k' : String)
    (h : k' ∈ (setPairs l k v).map (·.1)) : k' ∈ l.map (·.1) ∨ k' = k := by
  induction l with
  | nil =>
    simp [setPairs] at h
    exact Or.inr h
  | cons hd tl ih =>
    obtain ⟨k₀, v₀⟩ := hd
    by_cases h₀ : k₀ = k
    · subst h₀
      simp only [setPairs, if_true, List.map_cons, List.mem_cons] at h
      rcases h with h | h
      · exact Or.inr h
      · exact Or.inl (List.mem_cons_of_mem _ h)
    · simp only [setPairs, if_neg h₀, List.map_cons, List.mem_cons] at h
      rcases h with h | h
      · exact Or.inl (by simp [h])
      · rcases ih h with h' | h'
        · exact Or.inl (List.mem_cons_of_mem _ h')
        · exact Or.inr h'

theorem Storage.getItem_setItem_self (s : Storage) (k v : String) :
    (s.setItem k v).getItem k = some v :=
  getPairs_setPairs_self s.items k v

theorem Storage.getItem_setItem_ne (s : Storage) (k v k' : String) (h : k' ≠ k) :
    (s.setItem k v).getItem k' = s.getItem k' :=
  getPairs_setPairs_ne s.items k v k' h

theorem Storage.getItem_removeItem (s : Storage) (k k' : String) :
    (s.removeItem k).getItem k' = if k' = k then none else s.getItem k' :=
  getPairs_removePairs s.items k k'

theorem Storage.getItem_eq_none_of_not_mem_keys (s : Storage) (k : String)
    (h : k ∉ s.keys) : s.getItem k = none :=
  getPairs_eq_none_of_not_mem s.items k h

theorem Storage.getItem_isSome_of_mem_keys (s : Storage) (k : String)
    (h : k ∈ s.keys) : (s.getItem k).isSome = true :=
  getPairs_isSome_of_mem s.items k h

theorem Storage.mem_keys_setItem (s : Storage) (k v k' : String)
    (h : k' ∈ (s.setItem k v).keys) : k' ∈ s.keys ∨ k' = k :=
  mem_map_fst_setPairs s.items k v k' h

/-! ## Prefix lemmas -/

theorem strStartsWith_append (p t : String) : strStartsWith (p ++ t) p = true := by
  rw [strStartsWith, String.data_append, List.isPrefixOf_iff_prefix]
  exact List.prefix_append p.data t.data

/-- A key starting with the audio prefix also starts with the storage
prefix. -/
theorem strStartsWith_storagePfx_of_audio (k : String)
    (h : strStartsWith k (storagePfx ++ "audio_") = true) :
    strStartsWith k storagePfx = true := by
  rw [strStartsWith, List.isPrefixOf_iff_prefix] at h ⊢
  refine List.IsPrefix.trans ?_ h
  rw [String.data_append]
  exact List.prefix_append _ _

/-- A key not starting with the storage prefix differs from every
prefixed key. -/
theorem ne_append_of_not_startsWith (k t : String)
    (h : strStartsWith k storagePfx = false) : k ≠ storagePfx ++ t := by
  intro hk
  rw [hk, strStartsWith_append] at h
  exact Bool.noConfusion h

/-! ## UUID generator lemmas -/

/-- The character list of a generated identifier, explicitly. -/
theorem genUUID_data (draws : Nat → Fin 16) :
    (genUUID draws).data =
      [hexDigit (draws 0), hexDigit (draws 1), hexDigit (draws 2),
       hexDigit (draws 3), hexDigit (draws 4), hexDigit (draws 5),
       hexDigit (draws 6), hexDigit (draws 7), '-',
       hexDigit (draws 8), hexDigit (draws 9), hexDigit (draws 10),
       hexDigit (draws 11), '-', '4',
       hexDigit (draws 12), hexDigit (draws 13), hexDigit (draws 14), '-',
       hexDigit (((draws 15 : Nat) &&& 0x3) ||| 0x8),
       hexDigit (draws 16), hexDigit (draws 17), hexDigit (draws 18), '-',
       hexDigit (draws 19), hexDigit (draws 20), hexDigit (draws 21),
       hexDigit (draws 22), hexDigit (draws 23), hexDigit (draws 24),
       hexDigit (draws 25), hexDigit (draws 26), hexDigit (draws 27),
       hexDigit (draws 28), hexDigit (draws 29), hexDigit (draws 30)] := rfl

theorem genUUID_length (draws : Nat → Fin 16) : (genUUID draws).length = 36 := by
  rw [String.length, genUUID_data]
  rfl

theorem genUUID_ne_empty (draws : Nat → Fin 16) : genUUID draws ≠ "" := by
  intro h
  have h' := congrArg String.length h
  rw [genUUID_length draws] at h'
  simp [String.length] at h'

theorem hexDigit_lowerHex : ∀ n < 16, isLowerHex (hexDigit n) = true := by decide

theorem hexDigit_y_mem :
    ∀ n < 16, hexDigit ((n &&& 0x3) ||| 0x8) ∈ ['8', '9', 'a', 'b'] := by decide

theorem isLowerHex_hexDigit (n : Fin 16) : isLowerHex (hexDigit n.val) = true :=
  hexDigit_lowerHex n.val n.isLt

theorem yDigit_ok (n : Fin 16) :
    (hexDigit ((n.val &&& 0x3) ||| 0x8) == '8' ||
     hexDigit ((n.val &&& 0x3) ||| 0x8) == '9' ||
     hexDigit ((n.val &&& 0x3) ||| 0x8) == 'a' ||
     hexDigit ((n.val &&& 0x3) ||| 0x8) == 'b') = true := by
  revert n
  decide

/-- Every generated identifier has the claimed UUID v4 shape. -/
theorem genUUID_shape (draws : Nat → Fin 16) : uuidV4Shape (genUUID draws) = true := by
  rw [uuidV4Shape, genUUID_data]
  simp [uuidShapeAux, isLowerHex_hexDigit, yDigit_ok]

/-! ## getOrCreateUUID lemmas -/

/-- After any call, the store holds exactly the returned identifier. -/
theorem getOrCreateUUID_stored (s : Storage) (draws : Nat → Fin 16) :
    (getOrCreateUUID s draws).2.getItem (storagePfx ++ "user_uuid") =
      some (getOrCreateUUID s draws).1 := by
  unfold getOrCreateUUID
  cases h : s.getItem (storagePfx ++ "user_uuid") with
  | none => simp [jsTruthy, h, Storage.getItem_setItem_self]
  | some u =>
    by_cases hu : u = ""
    · simp [jsTruthy, h, hu, Storage.getItem_setItem_self]
    · simp [jsTruthy, h, hu]

/-- The returned identifier is never the empty string. -/
theorem getOrCreateUUID_fst_ne_empty (s : Storage) (draws : Nat → Fin 16) :
    (getOrCreateUUID s draws).1 ≠ "" := by
  unfold getOrCreateUUID
  cases h : s.getItem (storagePfx ++ "user_uuid") with
  | none => simp [jsTruthy, h, genUUID_ne_empty]
  | some u =>
    by_cases hu : u = ""
    · simp [jsTruthy, h, hu, genUUID_ne_empty]
    · simp [jsTruthy, h, hu]

/-- `getOrCreateUUID` writes (at most) the identifier key. -/
theorem getOrCreateUUID_getItem_ne (s : Storage) (draws : Nat → Fin 16)
    (k : String) (h : k ≠ storagePfx ++ "user_uuid") :
    (getOrCreateUUID s draws).2.getItem k = s.getItem k := by
  unfold getOrCreateUUID
  cases hs : s.getItem (storagePfx ++ "user_uuid") with
  | none => simp [jsTruthy, hs, Storage.getItem_setItem_ne _ _ _ _ h]
  | some u =>
    by_cases hu : u = ""
    · simp [jsTruthy, hs, hu, Storage.getItem_setItem_ne _ _ _ _ h]
    · simp [jsTruthy, hs, hu]

/-- The identifier returned depends only on the identifier binding. -/
theorem getOrCreateUUID_fst_congr (s₁ s₂ : Storage) (draws : Nat → Fin 16)
    (h : s₁.getItem (storagePfx ++ "user_uuid") =
         s₂.getItem (storagePfx ++ "user_uuid")) :
    (getOrCreateUUID s₁ draws).1 = (getOrCreateUUID s₂ draws).1 := by
  have h₁ := h
  unfold getOrCreateUUID
  cases h₂ : s₂.getItem (storagePfx ++ "user_uuid") with
  | none =>
    rw [h₂] at h₁
    simp [jsTruthy, h₁, h₂]
  | some u =>
    rw [h₂] at h₁
    by_cases hu : u = "" <;> simp [jsTruthy, h₁, h₂, hu]

/-- When a non-empty identifier is stored, the call returns it and leaves
the store untouched. -/
theorem getOrCreateUUID_of_truthy (s : Storage) (draws : Nat → Fin 16)
    (u : String) (h : s.getItem (storagePfx ++ "user_uuid") = some u)
    (hu : u ≠ "") : getOrCreateUUID s draws = (u, s) := by
  unfold getOrCreateUUID
  simp [jsTruthy, h, hu]

/-! ## clearSurveyStorage characterization -/

theorem clearFold_getItem (keys : List String) (acc : Storage) (k : String) :
    (keys.foldl
        (fun acc key =>
          if strStartsWith key (storagePfx ++ "audio_") then acc.removeItem key
          else acc)
        acc).getItem k =
      if strStartsWith k (storagePfx ++ "audio_") = true ∧ k ∈ keys then none
      else acc.getItem k := by
  induction keys generalizing acc with
  | nil => simp
  | cons key rest ih =>
    rw [List.foldl_cons, ih]
    by_cases hk : strStartsWith k (storagePfx ++ "audio_") = true
    · by_cases hmem : k ∈ rest
      · simp [hk, hmem]
      · by_cases hkey : k = key
        · subst hkey
          simp [hk, hmem, Storage.getItem_removeItem]
        · by_cases hp : strStartsWith key (storagePfx ++ "audio_") = true <;>
            simp [hk, hmem, hkey, hp, Storage.getItem_removeItem]
    · by_cases hp : strStartsWith key (storagePfx ++ "audio_") = true
      · have hkey : k ≠ key := by
          intro hh
          rw [hh] at hk
          exact hk hp
        simp [hk, hp, Storage.getItem_removeItem, hkey]
      · simp [hk, hp]

/-- `clearSurveyStorage` removes exactly the audio-progress keys. -/
theorem clearSurveyStorage_getItem (s : Storage) (k : String) :
    (clearSurveyStorage s).getItem k =
      if strStartsWith k (storagePfx ++ "audio_") = true then none
      else s.getItem k := by
  rw [clearSurveyStorage, clearFold_getItem]
  by_cases hk : strStartsWith k (storagePfx ++ "audio_") = true
  · by_cases hmem : k ∈ s.keys
    · simp [hk, hmem]
    · simp [hk, hmem, Storage.getItem_eq_none_of_not_mem_keys s k hmem]
  · simp [hk]

/-! ## Control-list lemmas -/

theorem updateFirst_find? (p : Control → Bool) (f : Control → Control)
    (hp : ∀ c, p (f c) = p c) (l : List Control) :
    (updateFirst p f l).find? p = (l.find? p).map f := by
  induction l with
  | nil => simp [updateFirst]
  | cons c rest ih =>
    by_cases hc : p c = true
    · simp [updateFirst, hc, List.find?_cons, hp c]
    · simp only [updateFirst, hc, Bool.false_eq_true, if_false]
      rw [List.find?_cons_of_neg _ (by simp [hc]),
        List.find?_cons_of_neg _ (by simp [hc]), ih]

theorem lockForm_disables (f : Form) (st : StatusEl) :
    ∀ c ∈ (lockForm f st).1.controls, isLockable c = true → c.disabled = true := by
  intro c hc hl
  simp only [lockForm, List.mem_map] at hc
  obtain ⟨c₀, _, rfl⟩ := hc
  by_cases h₀ : isLockable c₀ = true
  · simp [h₀]
  · rw [if_neg h₀] at hl ⊢
    exact absurd hl h₀

/-! ## submitHandler storage frame -/

/-- The handler only ever writes the identifier key, the completion flag,
and (by removal) audio-progress keys. -/
theorem submitHandler_storage_frame (f : Form) (st : StatusEl) (s : Storage)
    (draws : Nat → Fin 16) (nowISO : String) (outcome : FetchOutcome)
    (k : String)
    (hu : k ≠ storagePfx ++ "user_uuid")
    (hc : k ≠ storagePfx ++ "completed")
    (ha : strStartsWith k (storagePfx ++ "audio_") = false) :
    (submitHandler f st s draws nowISO outcome).storage.getItem k =
      s.getItem k := by
  have h₁ : ∀ s' : Storage, (getOrCreateUUID s' draws).2.getItem k = s'.getItem k :=
    fun s' => getOrCreateUUID_getItem_ne s' draws k hu
  have h₂ : ∀ s' : Storage, (clearSurveyStorage s').getItem k = s'.getItem k := by
    intro s'
    rw [clearSurveyStorage_getItem, if_neg]
    simp [ha]
  cases hg : firstFailingGroup f with
  | some g => simp [submitHandler, hg]
  | none =>
    by_cases hval : f.validity = true
    · cases outcome with
      | thrown => simp [submitHandler, hg, hval, h₁]
      | response ty =>
        by_cases hty : ty = "opaque"
        · simp [submitHandler, hg, hval, hty,
            Storage.getItem_setItem_ne _ _ _ _ hc, h₂, h₁]
        · simp [submitHandler, hg, hval, hty, h₁]
    · have hval' : f.validity = false := by
        cases hb : f.validity
        · rfl
        · exact absurd hb hval
      simp [submitHandler, hg, hval']

/-! ## Claim theorems -/

/-- C1: whenever `localStorage` maps `music_survey_completed` to `'true'`,
the page-load check `checkIfSubmitted` locks the form: every input,
button and textarea control of the form ends up disabled, so no further
submission can be initiated from that browser. -/
theorem checkIfSubmitted_locks_on_completed (storage : Storage) (f : Form)
    (st : StatusEl)
    (h : storage.getItem "music_survey_completed" = some "true") :
    ((checkIfSubmitted storage f st).1.controls.all
      (fun c => !(isLockable c) || c.disabled)) = true := by
  have hkey : storagePfx ++ "completed" = "music_survey_completed" := rfl
  rw [List.all_eq_true]
  intro c hc
  simp only [checkIfSubmitted, hkey, h, if_true] at hc
  have hd := lockForm_disables f st c hc
  cases hl : isLockable c
  · simp
  · simp [hd hl]

/-- Witness for C1 at a concrete store and form. -/
theorem checkIfSubmitted_locks_on_completed_witness :
    ((checkIfSubmitted ⟨[("music_survey_completed", "true")]⟩ sampleForm
        sampleStatus).1.controls.all
      (fun c => !(isLockable c) || c.disabled)) = true :=
  checkIfSubmitted_locks_on_completed ⟨[("music_survey_completed", "true")]⟩
    sampleForm sampleStatus (by decide)

/-- C3: `getOrCreateUUID` is stable: after any call the store holds
exactly the returned identifier under `music_survey_user_uuid` (a fresh
one is generated and stored when none was present), and a second call
returns the same identifier while leaving the store untouched. -/
theorem getOrCreateUUID_idempotent (s : Storage) (d₁ d₂ : Nat → Fin 16) :
    (getOrCreateUUID s d₁).2.getItem "music_survey_user_uuid" =
        some (getOrCreateUUID s d₁).1 ∧
    (getOrCreateUUID (getOrCreateUUID s d₁).2 d₂).1 = (getOrCreateUUID s d₁).1 ∧
    (getOrCreateUUID (getOrCreateUUID s d₁).2 d₂).2 = (getOrCreateUUID s d₁).2 := by
  have hkey : storagePfx ++ "user_uuid" = "music_survey_user_uuid" := rfl
  have h₁ := getOrCreateUUID_stored s d₁
  have hne := getOrCreateUUID_fst_ne_empty s d₁
  have h₂ := getOrCreateUUID_of_truthy (getOrCreateUUID s d₁).2 d₂
    (getOrCreateUUID s d₁).1 h₁ hne
  exact ⟨hkey ▸ h₁, congrArg Prod.fst h₂, congrArg Prod.snd h₂⟩

/-- C4: when validation fails — a required checkbox group has no checked
box, or `checkValidity()` is false — the handler sends no request, does
not set the completion flag, and leaves the store untouched. -/
theorem submitHandler_validation_gates (f : Form) (st : StatusEl)
    (storage : Storage) (draws : Nat → Fin 16) (nowISO : String)
    (outcome : FetchOutcome)
    (h : validateCheckboxGroups f = false ∨ f.validity = false) :
    (submitHandler f st storage draws nowISO outcome).request = none ∧
    (submitHandler f st storage draws nowISO outcome).storage = storage ∧
    (submitHandler f st storage draws nowISO outcome).storage.getItem
        "music_survey_completed" = storage.getItem "music_survey_completed" := by
  cases hg : firstFailingGroup f with
  | some g => simp [submitHandler, hg]
  | none =>
    rcases h with h | h
    · rw [validateCheckboxGroups, hg] at h
      simp at h
    · simp [submitHandler, hg, h]

/-- Witness for C4: a form with no checked required checkbox aborts. -/
theorem submitHandler_validation_gates_witness :
    (submitHandler sampleInvalidForm sampleStatus ⟨[]⟩ zeroDraws
        "2024-01-01T00:00:00.000Z" FetchOutcome.thrown).request = none ∧
    (submitHandler sampleInvalidForm sampleStatus ⟨[]⟩ zeroDraws
        "2024-01-01T00:00:00.000Z" FetchOutcome.thrown).storage = ⟨[]⟩ ∧
    (submitHandler sampleInvalidForm sampleStatus ⟨[]⟩ zeroDraws
        "2024-01-01T00:00:00.000Z" FetchOutcome.thrown).storage.getItem
        "music_survey_completed" =
      (Storage.mk []).getItem "music_survey_completed" :=
  submitHandler_validation_gates sampleInvalidForm sampleStatus ⟨[]⟩ zeroDraws
    "2024-01-01T00:00:00.000Z" FetchOutcome.thrown (Or.inl (by decide))

/-- C9: `clearSurveyStorage` removes exactly the keys starting with
`music_survey_audio_` and leaves every other binding unchanged — in
particular the identifier and the completion flag survive. -/
theorem clearSurveyStorage_exact_frame (s : Storage) (k : String) :
    (clearSurveyStorage s).getItem k =
        (if strStartsWith k "music_survey_audio_" = true then none
         else s.getItem k) ∧
    (clearSurveyStorage s).getItem "music_survey_user_uuid" =
        s.getItem "music_survey_user_uuid" ∧
    (clearSurveyStorage s).getItem "music_survey_completed" =
        s.getItem "music_survey_completed" := by
  have hkey : storagePfx ++ "audio_" = "music_survey_audio_" := rfl
  refine ⟨?_, ?_, ?_⟩
  · rw [clearSurveyStorage_getItem, hkey]
  · rw [clearSurveyStorage_getItem, hkey, if_neg (by decide)]
  · rw [clearSurveyStorage_getItem, hkey, if_neg (by decide)]

/-- C10: whenever `getOrCreateUUID` actually generates (the stored value
is falsy, so a fresh identifier is produced), the result is a
36-character string of UUID v4 shape — hyphens at positions 8, 13, 18
and 23, `'4'` at position 14, one of `8/9/a/b` at position 19 and
lowercase hex digits at all remaining positions — for every sequence of
random draws. -/
theorem getOrCreateUUID_generates_uuidV4 (s : Storage) (draws : Nat → Fin 16)
    (h : jsTruthy (s.getItem "music_survey_user_uuid") = false) :
    (getOrCreateUUID s draws).1.length = 36 ∧
    uuidV4Shape (getOrCreateUUID s draws).1 = true := by
  have hkey : storagePfx ++ "user_uuid" = "music_survey_user_uuid" := rfl
  have hfst : (getOrCreateUUID s draws).1 = genUUID draws := by
    unfold getOrCreateUUID
    simp [hkey, h]
  rw [hfst]
  exact ⟨genUUID_length draws, genUUID_shape draws⟩

/-- Witness for C10: generation from an empty store with all-zero draws. -/
theorem getOrCreateUUID_generates_uuidV4_witness :
    (getOrCreateUUID ⟨[]⟩ zeroDraws).1.length = 36 ∧
    uuidV4Shape (getOrCreateUUID ⟨[]⟩ zeroDraws).1 = true :=
  getOrCreateUUID_generates_uuidV4 ⟨[]⟩ zeroDraws (by decide)

/-- C2: on an `'opaque'` fetch response the handler sets
`music_survey_completed` to `'true'`, removes every stored audio-progress
entry, and disables every input, button and textarea control. -/
theorem submitHandler_success_locks (f : Form) (st : StatusEl) (storage : Storage)
    (draws : Nat → Fin 16) (nowISO : String)
    (hv : validateCheckboxGroups f = true) (hc : f.validity = true) :
    (submitHandler f st storage draws nowISO
        (FetchOutcome.response "opaque")).storage.getItem
        "music_survey_completed" = some "true" ∧
    ((submitHandler f st storage draws nowISO
        (FetchOutcome.response "opaque")).storage.keys.all
      (fun k => !(strStartsWith k "music_survey_audio_"))) = true ∧
    ((submitHandler f st storage draws nowISO
        (FetchOutcome.response "opaque")).form.controls.all
      (fun c => !(isLockable c) || c.disabled)) = true := by
  have hg : firstFailingGroup f = none := by
    rw [validateCheckboxGroups, Option.isNone_iff_eq_none] at hv
    exact hv
  have hkeyC : storagePfx ++ "completed" = "music_survey_completed" := rfl
  have hkeyA : storagePfx ++ "audio_" = "music_survey_audio_" := rfl
  have hst : (submitHandler f st storage draws nowISO
      (FetchOutcome.response "opaque")).storage =
      (clearSurveyStorage (getOrCreateUUID storage draws).2).setItem
        (storagePfx ++ "completed") "true" := by
    simp [submitHandler, hg, hc]
  have hfm : (submitHandler f st storage draws nowISO
      (FetchOutcome.response "opaque")).form =
      (lockForm (Form.reset (disableSubmitBtn f))
        (showStatus (showStatus st "提交中..." "info")
          "提交成功！感謝您的參與" "success")).1 := by
    simp [submitHandler, hg, hc]
  refine ⟨?_, ?_, ?_⟩
  · rw [hst, hkeyC, Storage.getItem_setItem_self]
  · rw [hst, List.all_eq_true]
    intro k hk
    rcases Storage.mem_keys_setItem _ _ _ _ hk with hmem | rfl
    · have hsome := Storage.getItem_isSome_of_mem_keys _ k hmem
      rw [clearSurveyStorage_getItem] at hsome
      by_cases hpa : strStartsWith k (storagePfx ++ "audio_") = true
      · rw [if_pos hpa] at hsome
        simp at hsome
      · rw [Bool.not_eq_true] at hpa
        rw [hkeyA] at hpa
        simp [hpa]
    · decide
  · rw [hfm, List.all_eq_true]
    intro c hcm
    have hd := lockForm_disables _ _ c hcm
    cases hl : isLockable c
    · simp
    · simp [hd hl]

/-- Witness for C2 at a concrete store holding an audio entry and a
foreign key. -/
theorem submitHandler_success_locks_witness :
    (submitHandler sampleForm sampleStatus
        ⟨[("music_survey_audio_track1.mp3", "7.25"), ("other_site", "x")]⟩
        zeroDraws "2024-01-01T00:00:00.000Z"
        (FetchOutcome.response "opaque")).storage.getItem
        "music_survey_completed" = some "true" ∧
    ((submitHandler sampleForm sampleStatus
        ⟨[("music_survey_audio_track1.mp3", "7.25"), ("other_site", "x")]⟩
        zeroDraws "2024-01-01T00:00:00.000Z"
        (FetchOutcome.response "opaque")).storage.keys.all
      (fun k => !(strStartsWith k "music_survey_audio_"))) = true ∧
    ((submitHandler sampleForm sampleStatus
        ⟨[("music_survey_audio_track1.mp3", "7.25"), ("other_site", "x")]⟩
        zeroDraws "2024-01-01T00:00:00.000Z"
        (FetchOutcome.response "opaque")).form.controls.all
      (fun c => !(isLockable c) || c.disabled)) = true :=
  submitHandler_success_locks sampleForm sampleStatus
    ⟨[("music_survey_audio_track1.mp3", "7.25"), ("other_site", "x")]⟩
    zeroDraws "2024-01-01T00:00:00.000Z" (by decide) rfl

/-- C5: every submission that passes validation sends to the backend URL a
body that is exactly the form's fields plus the appended
`submission_time` (the current ISO time string) and `uuid` (the value of
`getOrCreateUUID`) entries, URL-encoded. -/
theorem submitHandler_request_body (f : Form) (st : StatusEl) (storage : Storage)
    (draws : Nat → Fin 16) (nowISO : String) (outcome : FetchOutcome)
    (hv : validateCheckboxGroups f = true) (hc : f.validity = true) :
    (submitHandler f st storage draws nowISO outcome).request =
      some ⟨gasWebAppUrl,
        urlEncodeParams (f.fields ++
          [("submission_time", nowISO),
           ("uuid", (getOrCreateUUID storage draws).1)])⟩ := by
  have hg : firstFailingGroup f = none := by
    rw [validateCheckboxGroups, Option.isNone_iff_eq_none] at hv
    exact hv
  cases outcome with
  | thrown => simp [submitHandler, hg, hc]
  | response ty =>
    by_cases hty : ty = "opaque" <;> simp [submitHandler, hg, hc, hty]

/-- Witness for C5 at a concrete valid form. -/
theorem submitHandler_request_body_witness :
    (submitHandler sampleForm sampleStatus ⟨[]⟩ zeroDraws
        "2024-01-01T00:00:00.000Z" FetchOutcome.thrown).request =
      some ⟨gasWebAppUrl,
        urlEncodeParams (sampleForm.fields ++
          [("submission_time", "2024-01-01T00:00:00.000Z"),
           ("uuid", (getOrCreateUUID ⟨[]⟩ zeroDraws).1)])⟩ :=
  submitHandler_request_body sampleForm sampleStatus ⟨[]⟩ zeroDraws
    "2024-01-01T00:00:00.000Z" FetchOutcome.thrown (by decide) rfl

/-- C6 counterexample: with an empty store, a valid form and a thrown
fetch, the handler does change `localStorage` — the pre-fetch
`getOrCreateUUID` call creates the identifier binding. -/
theorem submitHandler_error_changes_storage :
    (submitHandler sampleForm sampleStatus ⟨[]⟩ zeroDraws
        "2024-01-01T00:00:00.000Z" FetchOutcome.thrown).storage ≠ ⟨[]⟩ := by
  decide

/-- C6 (amended): when the fetch throws or the response type is not
`'opaque'`, the handler shows the error status, re-enables the submit
button with its original label, does not set the completion flag, and the
store is exactly the one `getOrCreateUUID` produced before the fetch —
unchanged except that the identifier binding may have been created. -/
theorem submitHandler_error_recovery (f : Form) (st : StatusEl)
    (storage : Storage) (draws : Nat → Fin 16) (nowISO : String)
    (outcome : FetchOutcome)
    (hv : validateCheckboxGroups f = true) (hc : f.validity = true)
    (hout : outcome = FetchOutcome.thrown ∨
      ∃ ty, outcome = FetchOutcome.response ty ∧ ty ≠ "opaque") :
    (submitHandler f st storage draws nowISO outcome).statusEl.className =
        "error" ∧
    (submitHandler f st storage draws nowISO outcome).statusEl.textContent =
        "提交失敗: 請檢查網路後重試" ∧
    (submitHandler f st storage draws nowISO outcome).storage =
        (getOrCreateUUID storage draws).2 ∧
    (submitHandler f st storage draws nowISO outcome).storage.getItem
        "music_survey_completed" = storage.getItem "music_survey_completed" ∧
    (submitHandler f st storage draws nowISO outcome).form.controls.find?
        isSubmitButton =
      (f.controls.find? isSubmitButton).map
        (fun c => { c with disabled := false, textContent := "提交問卷" }) := by
  have hg : firstFailingGroup f = none := by
    rw [validateCheckboxGroups, Option.isNone_iff_eq_none] at hv
    exact hv
  have hkeyC : storagePfx ++ "completed" = "music_survey_completed" := rfl
  have hres : submitHandler f st storage draws nowISO outcome =
      { form := (recoverFromError (disableSubmitBtn f)
          (showStatus st "提交中..." "info")).1,
        statusEl := (recoverFromError (disableSubmitBtn f)
          (showStatus st "提交中..." "info")).2,
        storage := (getOrCreateUUID storage draws).2,
        request := some ⟨gasWebAppUrl,
          urlEncodeParams ((f.fields ++ [("submission_time", nowISO)]) ++
            [("uuid", (getOrCreateUUID storage draws).1)])⟩ } := by
    rcases hout with rfl | ⟨ty, rfl, hty⟩
    · simp [submitHandler, hg, hc]
    · simp [submitHandler, hg, hc, hty]
  rw [hres]
  refine ⟨rfl, rfl, rfl, ?_, ?_⟩
  · rw [← hkeyC]
    exact getOrCreateUUID_getItem_ne storage draws _ (by decide)
  · simp only [recoverFromError, disableSubmitBtn]
    rw [updateFirst_find? isSubmitButton
        (fun c => { c with disabled := false, textContent := "提交問卷" })
        (fun c => rfl),
      updateFirst_find? isSubmitButton
        (fun c => { c with disabled := true, textContent := "處理中..." })
        (fun c => rfl),
      Option.map_map]
    cases f.controls.find? isSubmitButton <;> rfl

/-- Witness for the amended C6 at a concrete failing fetch. -/
theorem submitHandler_error_recovery_witness :
    (submitHandler sampleForm sampleStatus ⟨[("music_survey_user_uuid", "u1")]⟩
        zeroDraws "2024-01-01T00:00:00.000Z"
        FetchOutcome.thrown).statusEl.className = "error" ∧
    (submitHandler sampleForm sampleStatus ⟨[("music_survey_user_uuid", "u1")]⟩
        zeroDraws "2024-01-01T00:00:00.000Z"
        FetchOutcome.thrown).statusEl.textContent = "提交失敗: 請檢查網路後重試" ∧
    (submitHandler sampleForm sampleStatus ⟨[("music_survey_user_uuid", "u1")]⟩
        zeroDraws "2024-01-01T00:00:00.000Z" FetchOutcome.thrown).storage =
      (getOrCreateUUID ⟨[("music_survey_user_uuid", "u1")]⟩ zeroDraws).2 ∧
    (submitHandler sampleForm sampleStatus ⟨[("music_survey_user_uuid", "u1")]⟩
        zeroDraws "2024-01-01T00:00:00.000Z" FetchOutcome.thrown).storage.getItem
        "music_survey_completed" =
      (Storage.mk [("music_survey_user_uuid", "u1")]).getItem
        "music_survey_completed" ∧
    (submitHandler sampleForm sampleStatus ⟨[("music_survey_user_uuid", "u1")]⟩
        zeroDraws "2024-01-01T00:00:00.000Z"
        FetchOutcome.thrown).form.controls.find? isSubmitButton =
      (sampleForm.controls.find? isSubmitButton).map
        (fun c => { c with disabled := false, textContent := "提交問卷" }) :=
  submitHandler_error_recovery sampleForm sampleStatus
    ⟨[("music_survey_user_uuid", "u1")]⟩ zeroDraws "2024-01-01T00:00:00.000Z"
    FetchOutcome.thrown (by decide) rfl (Or.inl rfl)

/-- C7: an audio element with a usable source uses the storage key
`music_survey_audio_` followed by the source file name; a saved value is
restored into `currentTime` on initialization, `timeupdate` while not
paused writes the current position to that key, and `ended` removes
it. -/
theorem audioPersistence_key_and_events (storage : Storage) (a : Audio)
    (src v : String) (hsrc : effectiveSrc a = some src) (hv : v ≠ "")
    (hp : a.paused = false) :
    audioStorageKey a = some ("music_survey_audio_" ++ fileNameOf src) ∧
    (audioRestore
        (storage.setItem ("music_survey_audio_" ++ fileNameOf src) v)
        a).currentTime = parseFloatJs v ∧
    (audioTimeupdate storage a
        ("music_survey_audio_" ++ fileNameOf src)).getItem
        ("music_survey_audio_" ++ fileNameOf src) =
      some a.currentTime.repr ∧
    (audioEnded storage ("music_survey_audio_" ++ fileNameOf src)).getItem
        ("music_survey_audio_" ++ fileNameOf src) = none := by
  have hkeyA : storagePfx ++ "audio_" = "music_survey_audio_" := rfl
  have hkey : audioStorageKey a =
      some ("music_survey_audio_" ++ fileNameOf src) := by
    simp [audioStorageKey, hsrc, hkeyA]
  refine ⟨hkey, ?_, ?_, ?_⟩
  · simp [audioRestore, hkey, Storage.getItem_setItem_self, hv]
  · simp [audioTimeupdate, hp, Storage.getItem_setItem_self]
  · simp [audioEnded, Storage.getItem_removeItem]

/-- Witness for C7 at a concrete audio element and saved position. -/
theorem audioPersistence_key_and_events_witness :
    audioStorageKey sampleAudio =
      some ("music_survey_audio_" ++
        fileNameOf "https://example.com/media/track1.mp3") ∧
    (audioRestore
        ((Storage.mk []).setItem
          ("music_survey_audio_" ++
            fileNameOf "https://example.com/media/track1.mp3") "3.7")
        sampleAudio).currentTime = parseFloatJs "3.7" ∧
    (audioTimeupdate ⟨[]⟩ sampleAudio
        ("music_survey_audio_" ++
          fileNameOf "https://example.com/media/track1.mp3")).getItem
        ("music_survey_audio_" ++
          fileNameOf "https://example.com/media/track1.mp3") =
      some sampleAudio.currentTime.repr ∧
    (audioEnded ⟨[]⟩
        ("music_survey_audio_" ++
          fileNameOf "https://example.com/media/track1.mp3")).getItem
        ("music_survey_audio_" ++
          fileNameOf "https://example.com/media/track1.mp3") = none :=
  audioPersistence_key_and_events ⟨[]⟩ sampleAudio
    "https://example.com/media/track1.mp3" "3.7" (by decide) (by decide) rfl

/-- C8: every store binding the script reads, writes or removes lives
under the `music_survey_` prefix: bindings outside the prefix are
preserved by every storage-mutating operation of the script, and the
script's value reads (completion flag, identifier, audio restore) do not
depend on them. -/
theorem storage_ops_respect_prefix (k v : String) (s : Storage) (f : Form)
    (st : StatusEl) (draws : Nat → Fin 16) (nowISO : String)
    (outcome : FetchOutcome) (a : Audio) (key' : String)
    (hk : strStartsWith k "music_survey_" = false)
    (hkey : audioStorageKey a = some key') :
    (getOrCreateUUID s draws).2.getItem k = s.getItem k ∧
    (clearSurveyStorage s).getItem k = s.getItem k ∧
    (submitHandler f st s draws nowISO outcome).storage.getItem k =
        s.getItem k ∧
    (audioTimeupdate s a key').getItem k = s.getItem k ∧
    (audioEnded s key').getItem k = s.getItem k ∧
    checkIfSubmitted (s.setItem k v) f st = checkIfSubmitted s f st ∧
    (getOrCreateUUID (s.setItem k v) draws).1 = (getOrCreateUUID s draws).1 ∧
    audioRestore (s.setItem k v) a = audioRestore s a := by
  have hk' : strStartsWith k storagePfx = false := hk
  have hu : k ≠ storagePfx ++ "user_uuid" := ne_append_of_not_startsWith _ _ hk'
  have hcm : k ≠ storagePfx ++ "completed" := ne_append_of_not_startsWith _ _ hk'
  have ha : strStartsWith k (storagePfx ++ "audio_") = false := by
    cases hb : strStartsWith k (storagePfx ++ "audio_")
    · rfl
    · have := strStartsWith_storagePfx_of_audio k hb
      rw [hk'] at this
      exact Bool.noConfusion this
  have hkey' : ∃ src, effectiveSrc a = some src ∧
      key' = storagePfx ++ "audio_" ++ fileNameOf src := by
    cases hsrc : effectiveSrc a with
    | none =>
      rw [audioStorageKey, hsrc] at hkey
      simp at hkey
    | some src =>
      rw [audioStorageKey, hsrc] at hkey
      simp at hkey
      exact ⟨src, rfl, hkey.symm⟩
  obtain ⟨src, hsrc, rfl⟩ := hkey'
  have hka : k ≠ storagePfx ++ "audio_" ++ fileNameOf src := by
    have hassoc : storagePfx ++ "audio_" ++ fileNameOf src =
        storagePfx ++ ("audio_" ++ fileNameOf src) := by
      rw [String.append_assoc]
    rw [hassoc]
    exact ne_append_of_not_startsWith _ _ hk'
  have hkeyEq : audioStorageKey a =
      some (storagePfx ++ "audio_" ++ fileNameOf src) := by
    simp [audioStorageKey, hsrc]
  refine ⟨getOrCreateUUID_getItem_ne s draws k hu, ?_,
    submitHandler_storage_frame f st s draws nowISO outcome k hu hcm ha,
    ?_, ?_, ?_, ?_, ?_⟩
  · rw [clearSurveyStorage_getItem, if_neg (by simp [ha])]
  · rw [audioTimeupdate]
    cases a.paused
    · simp [Storage.getItem_setItem_ne _ _ _ _ hka]
    · simp
  · rw [audioEnded, Storage.getItem_removeItem, if_neg hka]
  · simp only [checkIfSubmitted,
      Storage.getItem_setItem_ne _ _ _ _ (Ne.symm hcm)]
  · exact getOrCreateUUID_fst_congr _ _ draws
      (Storage.getItem_setItem_ne _ _ _ _ (Ne.symm hu))
  · simp only [audioRestore, hkeyEq,
      Storage.getItem_setItem_ne _ _ _ _ (Ne.symm hka)]

/-- Witness for C8 at a concrete foreign key and audio element. -/
theorem storage_ops_respect_prefix_witness :
    (getOrCreateUUID ⟨[("other_site", "x")]⟩ zeroDraws).2.getItem "other_site" =
        (Storage.mk [("other_site", "x")]).getItem "other_site" ∧
    (clearSurveyStorage ⟨[("other_site", "x")]⟩).getItem "other_site" =
        (Storage.mk [("other_site", "x")]).getItem "other_site" ∧
    (submitHandler sampleForm sampleStatus ⟨[("other_site", "x")]⟩ zeroDraws
        "2024-01-01T00:00:00.000Z" FetchOutcome.thrown).storage.getItem
        "other_site" = (Storage.mk [("other_site", "x")]).getItem "other_site" ∧
    (audioTimeupdate ⟨[("other_site", "x")]⟩ sampleAudio
        "music_survey_audio_track1.mp3").getItem "other_site" =
        (Storage.mk [("other_site", "x")]).getItem "other_site" ∧
    (audioEnded ⟨[("other_site", "x")]⟩
        "music_survey_audio_track1.mp3").getItem "other_site" =
        (Storage.mk [("other_site", "x")]).getItem "other_site" ∧
    checkIfSubmitted ((Storage.mk [("other_site", "x")]).setItem "other_site" "y")
        sampleForm sampleStatus =
      checkIfSubmitted ⟨[("other_site", "x")]⟩ sampleForm sampleStatus ∧
    (getOrCreateUUID ((Storage.mk [("other_site", "x")]).setItem "other_site" "y")
        zeroDraws).1 = (getOrCreateUUID ⟨[("other_site", "x")]⟩ zeroDraws).1 ∧
    audioRestore ((Storage.mk [("other_site", "x")]).setItem "other_site" "y")
        sampleAudio = audioRestore ⟨[("other_site", "x")]⟩ sampleAudio :=
  storage_ops_respect_prefix "other_site" "y" ⟨[("other_site", "x")]⟩ sampleForm
    sampleStatus zeroDraws "2024-01-01T00:00:00.000Z" FetchOutcome.thrown
    sampleAudio "music_survey_audio_track1.mp3" (by decide) (by decide)

end MusicSurvey
